import Mathlib

/-!
# k8slogs: a shallow embedding of `main.go`

The program lists the pods of a namespace and, for every container of every
pod, streams the container's log into a file of the output directory.

The embedding is explicit state passing over a `World`: the trace of the
interactions with the outside (API requests, file system calls, clock reads,
console output) and the contents of the files.  The outside is a pair of
oracle records: `Clientset` (the cluster API) and `Sys` (file system, clock,
credential loading, flag parsing).  Every oracle takes the number of earlier
calls of its own kind, so that any assignment of outcomes to calls can be
expressed.
-/

namespace K8sLogs

/-! ## Go values -/

/-- Go `error` values: a plain message, or `fmt.Errorf` with the verb `%w`. -/
inductive GoError where
  | base (msg : String)
  | wrap (pre : String) (inner : GoError)
deriving DecidableEq, Repr

/-- The method `Error()`. -/
def GoError.Error : GoError → String
  | .base msg => msg
  | .wrap pre inner => pre ++ inner.Error

/-- The method `Unwrap()` that `errors.Unwrap` consults. -/
def GoError.Unwrap : GoError → Option GoError
  | .base _ => none
  | .wrap _ inner => some inner

/-- The bytes of a Go string (Go strings are UTF-8 byte sequences). -/
def bytesOf (s : String) : List UInt8 :=
  s.data.flatMap String.utf8EncodeChar

/-- Worker of `Split` on the characters of the string. -/
def splitChars (sep : Char) : List Char → List (List Char)
  | [] => [[]]
  | c :: cs =>
    if c = sep then [] :: splitChars sep cs
    else
      match splitChars sep cs with
      | [] => [[c]]
      | seg :: segs => (c :: seg) :: segs

/-- The library function `strings.Split(s, sep)` for a separator of one
character, which is how the program calls it (`"-"`).  Go splits the bytes of
the string; `-` is an ASCII byte, which never occurs inside the encoding of
another character, so splitting the characters gives the same pieces. -/
def Split (s : String) (sep : Char) : List String :=
  (splitChars sep s.data).map String.mk

/-- Decimal digits of `n`, zero padded on the left to `width` characters
(what the time formatter does for `2006`, `01`, `02`, `15`, `04`, `05`). -/
def zeroPad (width n : Nat) : String :=
  let ds := Nat.toDigits 10 n
  String.mk (List.replicate (width - ds.length) '0' ++ ds)

/-- A wall-clock reading, as returned by `time.Now()`. -/
structure Time where
  year : Nat
  month : Nat
  day : Nat
  hour : Nat
  minute : Nat
  second : Nat
deriving DecidableEq, Repr

/-- The call `t.Format("20060102_150405")`. -/
def Time.formatStamp (t : Time) : String :=
  zeroPad 4 t.year ++ zeroPad 2 t.month ++ zeroPad 2 t.day ++ "_" ++
    zeroPad 2 t.hour ++ zeroPad 2 t.minute ++ zeroPad 2 t.second

/-- The call `t.Format("2006-01-02 15:04:05")`. -/
def Time.formatDateTime (t : Time) : String :=
  zeroPad 4 t.year ++ "-" ++ zeroPad 2 t.month ++ "-" ++ zeroPad 2 t.day ++ " " ++
    zeroPad 2 t.hour ++ ":" ++ zeroPad 2 t.minute ++ ":" ++ zeroPad 2 t.second

/-! ## Data model -/

/-- The struct `PodLogConfig`; the `*int64` fields are optional integers. -/
structure PodLogConfig where
  Namespace : String
  PodNames : List String
  OutputDir : String
  TailLines : Option Int
  Follow : Bool
  Previous : Bool
  SinceSeconds : Option Int
  Timestamps : Bool
  ContainerName : String

/-- The fields of `v1.PodLogOptions` that the program sets. -/
structure PodLogOptions where
  Container : String
  Follow : Bool
  Previous : Bool
  Timestamps : Bool
  TailLines : Option Int
  SinceSeconds : Option Int
deriving DecidableEq, Repr

/-- The field of `v1.Container` that the program reads. -/
structure Container where
  Name : String
deriving DecidableEq, Repr

/-- The fields of `v1.PodSpec` that the program reads. -/
structure PodSpec where
  Containers : List Container
  InitContainers : List Container
deriving DecidableEq, Repr

/-- The fields of `v1.Pod` that the program reads. -/
structure Pod where
  Name : String
  Spec : PodSpec
deriving DecidableEq, Repr

/-- The `io.ReadCloser` returned by `req.Stream`: the bytes it supplies, then
either end of file (`err = none`) or a read error. -/
structure LogStream where
  data : List UInt8
  err : Option GoError

/-! ## The world -/

/-- One interaction of the program with the outside. -/
inductive Event where
  | mkdirAll (path : String)
  | print (text : String)
  | logFatal (text : String)
  | listPods (ns : String)
  | getPod (ns : String) (name : String)
  | openStream (ns : String) (pod : String) (opts : PodLogOptions)
  | closeStream (pod : String) (container : String)
  | timeNow
  | create (path : String)
  | write (path : String) (bytes : List UInt8)
  | closeFile (path : String)
deriving DecidableEq, Repr

/-- The trace of interactions so far (oldest first) and the file contents. -/
structure World where
  events : List Event
  files : String → Option (List UInt8)

/-- The world before the program starts: nothing happened, no file. -/
def World.init : World := ⟨[], fun _ => none⟩

/-- Records one interaction. -/
def World.emit (w : World) (e : Event) : World :=
  { w with events := w.events ++ [e] }

/-- The effect of a successful `os.Create`: the file exists and is empty. -/
def World.createFile (w : World) (path : String) : World :=
  { w with files := fun q => if q = path then some [] else w.files q }

/-- The effect of a write: `bytes` reach the end of the file. -/
def World.writeFile (w : World) (path : String) (bytes : List UInt8) : World :=
  { events := w.events ++ [Event.write path bytes]
    files := fun q => if q = path then some ((w.files q).getD [] ++ bytes) else w.files q }

def Event.isMkdirAll : Event → Bool
  | .mkdirAll _ => true
  | _ => false

def Event.isListPods : Event → Bool
  | .listPods _ => true
  | _ => false

def Event.isGetPod : Event → Bool
  | .getPod _ _ => true
  | _ => false

def Event.isOpenStream : Event → Bool
  | .openStream _ _ _ => true
  | _ => false

def Event.isTimeNow : Event → Bool
  | .timeNow => true
  | _ => false

def Event.isCreate : Event → Bool
  | .create _ => true
  | _ => false

def Event.isWrite : Event → Bool
  | .write _ _ => true
  | _ => false

/-- Number of earlier interactions of one kind. -/
def World.count (w : World) (kind : Event → Bool) : Nat :=
  w.events.countP kind

/-- The (pod, container) pair of a log-stream request. -/
def Event.attempt : Event → Option (String × String)
  | .openStream _ pod opts => some (pod, opts.Container)
  | _ => none

/-- The path of a file-creation call. -/
def Event.created : Event → Option String
  | .create path => some path
  | _ => none

/-- The pod name of a pod-fetch request. -/
def Event.fetched : Event → Option String
  | .getPod _ name => some name
  | _ => none

/-- The text of a write to standard output. -/
def Event.printed : Event → Option String
  | .print text => some text
  | _ => none

/-- The log-stream requests of a trace, as (pod, container) pairs: one per
call of `collectContainerLogs`, which starts with exactly one such request. -/
def attemptsOf (es : List Event) : List (String × String) :=
  es.filterMap Event.attempt

/-- The paths handed to `os.Create` in a trace. -/
def createsOf (es : List Event) : List String :=
  es.filterMap Event.created

/-- The pod-fetch requests of a trace. -/
def fetchesOf (es : List Event) : List String :=
  es.filterMap Event.fetched

/-- The text written to standard output in a trace. -/
def printsOf (es : List Event) : List String :=
  es.filterMap Event.printed

/-! ## The outside -/

/-- The cluster API behind `*kubernetes.Clientset`.  The first argument of
every operation is the number of earlier requests of the same kind. -/
structure Clientset where
  listPods : Nat → String → Except GoError (List Pod)
  getPod : Nat → String → String → Except GoError Pod
  openStream : Nat → String → String → PodLogOptions → Except GoError LogStream

/-- A resolved `*rest.Config`. -/
structure RestConfig where
  host : String

/-- The operating system and the libraries the program calls.
`writeFault k path bytes = some (n, e)` says that write number `k` fails with
`e` after `n` of its bytes reached the file.  `flagParse` is `flag.Parse()`
with the flag `-n`: the exit code with which the flag package ends the
process, or the namespace and the remaining arguments. -/
structure Sys where
  mkdirAll : Nat → String → Option GoError
  create : Nat → String → Option GoError
  writeFault : Nat → String → List UInt8 → Option (Nat × GoError)
  now : Nat → Time
  joinPath : String → String → String
  inClusterConfig : Except GoError RestConfig
  defaultKubeconfig : String
  buildConfigFromFlags : String → String → Except GoError RestConfig
  newForConfig : RestConfig → Except GoError Clientset
  flagParse : Except Nat (String × List String)

/-! ## The program -/

/-- The file name computed in `collectContainerLogs` from the pod name, the
container name and the formatted time. -/
def logFilename (podName containerName timestamp : String) : String :=
  let filename := podName ++ "_" ++ containerName ++ "_" ++ timestamp ++ ".log"
  if (Split containerName '-').length = 1 ∧ containerName ≠ "istio-proxy" then
    podName ++ "_" ++ timestamp ++ ".log"
  else
    filename

/-- The header written at the top of a log file. -/
def logHeader (podName containerName collected : String) : String :=
  "=== Pod: " ++ podName ++ " | Container: " ++ containerName ++
    " | Collected: " ++ collected ++ " ===\n\n"

/-- The call `io.Copy(file, logs)`: the bytes of the stream go to the file
until the stream ends, a write fails or the stream reports a read error. -/
def ioCopy (sys : Sys) (path : String) (logs : LogStream) (w : World) :
    Option GoError × World :=
  if logs.data = [] then (logs.err, w)
  else
    match sys.writeFault (w.count Event.isWrite) path logs.data with
    | some (n, err) => (some err, w.writeFile path (logs.data.take n))
    | none => (logs.err, w.writeFile path logs.data)

/-- The `v1.PodLogOptions` literal built at the top of `collectContainerLogs`. -/
def logOptionsFor (config : PodLogConfig) (containerName : String) : PodLogOptions :=
  { Container := containerName
    Follow := config.Follow
    Previous := config.Previous
    Timestamps := config.Timestamps
    TailLines := config.TailLines
    SinceSeconds := config.SinceSeconds }

/-- The function `collectContainerLogs`: the returned error (`none` is `nil`)
and the world afterwards. -/
def collectContainerLogs (sys : Sys) (clientset : Clientset) (config : PodLogConfig)
    (podName containerName : String) (w : World) : Option GoError × World :=
  let logOptions := logOptionsFor config containerName
  let w1 := w.emit (Event.openStream config.Namespace podName logOptions)
  match clientset.openStream (w.count Event.isOpenStream) config.Namespace podName logOptions with
  | .error err => (some (GoError.wrap "failed to get logs stream: " err), w1)
  | .ok logs =>
    let timestamp := (sys.now (w1.count Event.isTimeNow)).formatStamp
    let w2 := w1.emit Event.timeNow
    let filename := logFilename podName containerName timestamp
    let filepath := sys.joinPath config.OutputDir filename
    let w3 := w2.emit (Event.create filepath)
    match sys.create (w2.count Event.isCreate) filepath with
    | some err =>
      (some (GoError.wrap "failed to create log file: " err),
        w3.emit (Event.closeStream podName containerName))
    | none =>
      let w4 := w3.createFile filepath
      let header := logHeader podName containerName
        (sys.now (w4.count Event.isTimeNow)).formatDateTime
      let w5 := w4.emit Event.timeNow
      match sys.writeFault (w5.count Event.isWrite) filepath (bytesOf header) with
      | some (n, err) =>
        (some (GoError.wrap "failed to write header: " err),
          ((w5.writeFile filepath ((bytesOf header).take n)).emit
            (Event.closeFile filepath)).emit (Event.closeStream podName containerName))
      | none =>
        let w6 := w5.writeFile filepath (bytesOf header)
        let copied := ioCopy sys filepath logs w6
        let w7 := copied.2
        match copied.1 with
        | some err =>
          (some (GoError.wrap "failed to write logs to file: " err),
            (w7.emit (Event.closeFile filepath)).emit
              (Event.closeStream podName containerName))
        | none =>
          (none,
            ((w7.emit (Event.print ("  \u00e2\u0153\u201c Saved logs to: " ++ filepath ++ "\n"))).emit
              (Event.closeFile filepath)).emit (Event.closeStream podName containerName))

/-- The containers chosen for one pod in `GetPodLogsToFile`: the slice
`containers` after the `if`, built with `append` as in the source. -/
def podContainers (config : PodLogConfig) (pod : Pod) : List String :=
  if config.ContainerName ≠ "" then
    [config.ContainerName]
  else
    let containers := pod.Spec.Containers.foldl (fun acc container => acc ++ [container.Name]) []
    pod.Spec.InitContainers.foldl (fun acc initContainer => acc ++ [initContainer.Name]) containers

/-- The inner loop of `GetPodLogsToFile` over the containers of one pod. -/
def collectLoop (sys : Sys) (clientset : Clientset) (config : PodLogConfig)
    (podName : String) : List String → World → World
  | [], w => w
  | containerName :: rest, w =>
    let collected := collectContainerLogs sys clientset config podName containerName w
    let w1 := collected.2
    match collected.1 with
    | some err =>
      collectLoop sys clientset config podName rest
        (w1.emit (Event.print ("Warning: failed to collect logs for pod " ++ podName ++
          ", container " ++ containerName ++ ": " ++ err.Error ++ "\n")))
    | none => collectLoop sys clientset config podName rest w1

/-- The outer loop of `GetPodLogsToFile` over the pod names. -/
def podLoop (sys : Sys) (clientset : Clientset) (config : PodLogConfig) :
    List String → World → World
  | [], w => w
  | podName :: rest, w =>
    let w1 := w.emit (Event.print ("Collecting logs for pod: " ++ podName ++ "\n"))
    let w2 := w1.emit (Event.getPod config.Namespace podName)
    match clientset.getPod (w1.count Event.isGetPod) config.Namespace podName with
    | .error err =>
      podLoop sys clientset config rest
        (w2.emit (Event.print ("Warning: failed to get pod " ++ podName ++ ": " ++
          err.Error ++ "\n")))
    | .ok pod =>
      podLoop sys clientset config rest
        (collectLoop sys clientset config podName (podContainers config pod) w2)

/-- The function `GetPodLogsToFile`. -/
def GetPodLogsToFile (sys : Sys) (clientset : Clientset) (config : PodLogConfig)
    (w : World) : Option GoError × World :=
  let w1 := w.emit (Event.mkdirAll config.OutputDir)
  match sys.mkdirAll (w.count Event.isMkdirAll) config.OutputDir with
  | some err => (some (GoError.wrap "failed to create output directory: " err), w1)
  | none => (none, podLoop sys clientset config config.PodNames w1)

/-- The function `CreateKubernetesClient`. -/
def CreateKubernetesClient (sys : Sys) : Except GoError Clientset :=
  let build (config : RestConfig) : Except GoError Clientset :=
    match sys.newForConfig config with
    | .error err => .error (GoError.wrap "failed to create kubernetes client: " err)
    | .ok clientset => .ok clientset
  match sys.inClusterConfig with
  | .ok config => build config
  | .error _ =>
    match sys.buildConfigFromFlags "" sys.defaultKubeconfig with
    | .error err => .error (GoError.wrap "failed to create kubernetes config: " err)
    | .ok config => build config

/-- The function `ListPodsInNamespace` (its error is formatted with `%v`). -/
def ListPodsInNamespace (clientset : Clientset) (ns : String) (w : World) :
    Except GoError (List Pod) × World :=
  let w1 := w.emit (Event.listPods ns)
  match clientset.listPods (w.count Event.isListPods) ns with
  | .error err =>
    (.error (GoError.base ("failed to list pods in namespace " ++ ns ++ ": " ++ err.Error)), w1)
  | .ok pods => (.ok pods, w1)

/-- The function `GetPodNames`. -/
def GetPodNames (pods : List Pod) : List String :=
  pods.map (fun pod => pod.Name)

/-- The function `readArgsWithFlags`: the exit code when the flag package
ends the process, else the value of `-n`. -/
def readArgsWithFlags (sys : Sys) (w : World) : Except Nat String × World :=
  let w1 := w.emit (Event.print "\n=== Pull pods logs from Kubernetes ===\n")
  match sys.flagParse with
  | .error code => (.error code, w1)
  | .ok (name, remainingArgs) =>
    if remainingArgs.length > 0 then
      (.ok name,
        w1.emit (Event.print ("Non-flag arguments: [" ++ " ".intercalate remainingArgs ++ "]\n")))
    else
      (.ok name, w1)

/-- The function `main`: the exit code of the process and the final world. -/
def main (sys : Sys) (w : World) : Nat × World :=
  match CreateKubernetesClient sys with
  | .error err =>
    (1, w.emit (Event.print ("Error creating Kubernetes client: " ++ err.Error ++ "\n")))
  | .ok clientset =>
    match readArgsWithFlags sys w with
    | (.error code, w1) => (code, w1)
    | (.ok ns, w1) =>
      match ListPodsInNamespace clientset ns w1 with
      | (.error err, w2) => (1, w2.emit (Event.logFatal ("Error listing pods: " ++ err.Error)))
      | (.ok pods, w2) =>
        let podNames := GetPodNames pods
        let config : PodLogConfig :=
          { Namespace := ns
            PodNames := podNames
            OutputDir := "./pod-logs"
            TailLines := some 1000
            Follow := false
            Previous := false
            SinceSeconds := none
            Timestamps := true
            ContainerName := "" }
        match GetPodLogsToFile sys clientset config w2 with
        | (some err, w3) =>
          (1, w3.emit (Event.print ("Error collecting logs: " ++ err.Error ++ "\n")))
        | (none, w3) => (0, w3.emit (Event.print "Log collection completed!\n"))

/-! ## Specification-level definitions -/

/-- The container set of a pod in the words of the specification: the one
configured name if there is one, else the regular container names followed by
the init container names. -/
def specContainerSet (config : PodLogConfig) (pod : Pod) : List String :=
  if config.ContainerName = "" then
    pod.Spec.Containers.map (fun c => c.Name) ++ pod.Spec.InitContainers.map (fun c => c.Name)
  else
    [config.ContainerName]

/-- The collection attempts the specification expects for a list of pod
names, the first of which is fetch number `i`: a pod whose fetch fails
contributes nothing, every other pod contributes its container set in order. -/
def specAttempts (getPod : Nat → String → String → Except GoError Pod)
    (config : PodLogConfig) : Nat → List String → List (String × String)
  | _, [] => []
  | i, podName :: rest =>
    (match getPod i config.Namespace podName with
      | .error _ => []
      | .ok pod => (specContainerSet config pod).map (fun c => (podName, c))) ++
    specAttempts getPod config (i + 1) rest

/-- The same cluster with every log stream opening and delivering `data`
without error. -/
def Clientset.streamsSucceed (clientset : Clientset) (data : List UInt8) : Clientset :=
  { clientset with openStream := fun _ _ _ _ => .ok ⟨data, none⟩ }

/-- The same system with every file creation and every write succeeding. -/
def Sys.filesSucceed (sys : Sys) : Sys :=
  { sys with create := fun _ _ => none, writeFault := fun _ _ _ => none }

/-! ## Concrete scenarios -/

/-- A clock stopped at 2024-01-02 03:04:05. -/
def demoTime : Time := ⟨2024, 1, 2, 3, 4, 5⟩

/-- A cluster with the given pods, found by name, in which the log of
container `c` is the bytes of the string `log of c`. -/
def demoCluster (pods : List Pod) : Clientset :=
  { listPods := fun _ _ => .ok pods
    getPod := fun _ _ name =>
      match pods.find? (fun pod => pod.Name = name) with
      | some pod => .ok pod
      | none => .error (GoError.base ("pod not found: " ++ name))
    openStream := fun _ _ _ opts => .ok ⟨bytesOf ("log of " ++ opts.Container), none⟩ }

/-- A healthy system in front of `demoCluster pods`: every call succeeds,
the clock is stopped and paths are joined with a slash. -/
def demoSys (pods : List Pod) : Sys :=
  { mkdirAll := fun _ _ => none
    create := fun _ _ => none
    writeFault := fun _ _ _ => none
    now := fun _ => demoTime
    joinPath := fun dir name => dir ++ "/" ++ name
    inClusterConfig := .error (GoError.base "not running in a cluster")
    defaultKubeconfig := "/home/user/.kube/config"
    buildConfigFromFlags := fun _ _ => .ok ⟨"https://cluster.example:6443"⟩
    newForConfig := fun _ => .ok (demoCluster pods)
    flagParse := .ok ("default", []) }

/-- The configuration that `main` builds, for the given pod names. -/
def demoConfig (podNames : List String) : PodLogConfig :=
  { Namespace := "default"
    PodNames := podNames
    OutputDir := "pod-logs"
    TailLines := some 1000
    Follow := false
    Previous := false
    SinceSeconds := none
    Timestamps := true
    ContainerName := "" }

/-- The configuration `demoConfig podNames` with the container filter `debug`. -/
def filterConfig (podNames : List String) : PodLogConfig :=
  { demoConfig podNames with ContainerName := "debug" }

/-- Pod `web` with the single container `web`. -/
def podWeb : Pod := ⟨"web", ⟨[⟨"web"⟩], []⟩⟩

/-- Pod `web` with the single container `istio-proxy`. -/
def podWebProxy : Pod := ⟨"web", ⟨[⟨"istio-proxy"⟩], []⟩⟩

/-- Pod `api` with the containers `api` and `istio-proxy`. -/
def podApi : Pod := ⟨"api", ⟨[⟨"api"⟩, ⟨"istio-proxy"⟩], []⟩⟩

/-- Pod `job` with the containers `app` and `sidecar` and the init container `setup`. -/
def podJob : Pod := ⟨"job", ⟨[⟨"app"⟩, ⟨"sidecar"⟩], [⟨"setup"⟩]⟩⟩

/-- The cluster `demoCluster pods` in which the second log-stream request
(request number 1) fails. -/
def faultyCluster (pods : List Pod) : Clientset :=
  { demoCluster pods with
    openStream := fun k ns pod opts =>
      if k = 1 then .error (GoError.base "container is not running")
      else (demoCluster pods).openStream k ns pod opts }

/-- The system `demoSys pods` in which the third file creation (number 2)
fails and the fourth write (number 3) stops after two bytes. -/
def faultySys (pods : List Pod) : Sys :=
  { demoSys pods with
    create := fun k _ => if k = 2 then some (GoError.base "permission denied") else none
    writeFault := fun k _ _ =>
      if k = 3 then some (2, GoError.base "no space left on device") else none }

/-- The system `demoSys pods` on which the output directory cannot be created. -/
def noDirSys (pods : List Pod) : Sys :=
  { demoSys pods with
    mkdirAll := fun _ _ => some (GoError.base "mkdir pod-logs: not a directory") }

/-- A cluster that lists `pods` and refuses every pod fetch and every log
stream. -/
def deafCluster (pods : List Pod) : Clientset :=
  { listPods := fun _ _ => .ok pods
    getPod := fun _ _ _ => .error (GoError.base "connection refused")
    openStream := fun _ _ _ _ => .error (GoError.base "connection refused") }

/-- The system `demoSys pods` in front of `deafCluster pods`. -/
def deafSys (pods : List Pod) : Sys :=
  { demoSys pods with newForConfig := fun _ => .ok (deafCluster pods) }

/-- A system on which no credentials resolve. -/
def noClientSys : Sys :=
  { demoSys [] with
    buildConfigFromFlags := fun _ _ => .error (GoError.base "no configuration has been provided") }

/-- Pod `web` with the containers `app` and `sidecar`. -/
def podPair : Pod := ⟨"web", ⟨[⟨"app"⟩, ⟨"sidecar"⟩], []⟩⟩

/-! ## Strings -/

theorem splitChars_length (sep : Char) (l : List Char) :
    (splitChars sep l).length = l.count sep + 1 := by
  induction l with
  | nil => simp [splitChars]
  | cons c cs ih =>
    by_cases h : c = sep
    · subst h
      simp [splitChars, ih]
    · have hne : (c == sep) = false := by simpa using h
      rw [splitChars, if_neg h, List.count_cons, hne]
      cases hs : splitChars sep cs with
      | nil => rw [hs] at ih; simp at ih
      | cons seg segs => rw [hs] at ih; simpa using ih

theorem Split_length (s : String) (sep : Char) :
    (Split s sep).length = s.data.count sep + 1 := by
  simp [Split, splitChars_length]

theorem Split_length_eq_one (s : String) (sep : Char) :
    (Split s sep).length = 1 ↔ sep ∉ s.data := by
  rw [Split_length]
  constructor
  · intro h
    exact List.count_eq_zero.mp (by omega)
  · intro h
    rw [List.count_eq_zero.mpr h]

theorem short_decision_iff (c : String) :
    ((Split c '-').length = 1 ∧ c ≠ "istio-proxy") ↔ '-' ∉ c.data := by
  rw [Split_length_eq_one]
  constructor
  · exact fun h => h.1
  · intro h
    refine ⟨h, ?_⟩
    intro hc
    subst hc
    exact h (by decide)

theorem logFilename_eq (p c t : String) :
    logFilename p c t =
      if '-' ∈ c.data then p ++ "_" ++ c ++ "_" ++ t ++ ".log" else p ++ "_" ++ t ++ ".log" := by
  unfold logFilename
  by_cases h : '-' ∈ c.data
  · rw [if_pos h, if_neg (fun hc => (short_decision_iff c).mp hc h)]
  · rw [if_neg h, if_pos ((short_decision_iff c).mpr h)]

/-! ## Traces -/

@[simp] theorem events_emit (w : World) (e : Event) : (w.emit e).events = w.events ++ [e] := rfl

@[simp] theorem files_emit (w : World) (e : Event) : (w.emit e).files = w.files := rfl

@[simp] theorem events_createFile (w : World) (path : String) :
    (w.createFile path).events = w.events := rfl

@[simp] theorem events_writeFile (w : World) (path : String) (bytes : List UInt8) :
    (w.writeFile path bytes).events = w.events ++ [Event.write path bytes] := rfl

@[simp] theorem files_createFile_self (w : World) (path : String) :
    (w.createFile path).files path = some [] := by
  simp [World.createFile]

@[simp] theorem files_writeFile_self (w : World) (path : String) (bytes : List UInt8) :
    (w.writeFile path bytes).files path = some ((w.files path).getD [] ++ bytes) := by
  simp [World.writeFile]

@[simp] theorem attemptsOf_append (a b : List Event) :
    attemptsOf (a ++ b) = attemptsOf a ++ attemptsOf b := by
  simp [attemptsOf]

@[simp] theorem createsOf_append (a b : List Event) :
    createsOf (a ++ b) = createsOf a ++ createsOf b := by
  simp [createsOf]

@[simp] theorem printsOf_append (a b : List Event) :
    printsOf (a ++ b) = printsOf a ++ printsOf b := by
  simp [printsOf]

@[simp] theorem count_emit (w : World) (e : Event) (kind : Event → Bool) :
    (w.emit e).count kind = w.count kind + (if kind e then 1 else 0) := by
  simp [World.count, List.countP_append, List.countP_cons]

@[simp] theorem count_createFile (w : World) (path : String) (kind : Event → Bool) :
    (w.createFile path).count kind = w.count kind := rfl

@[simp] theorem count_writeFile (w : World) (path : String) (bytes : List UInt8)
    (kind : Event → Bool) :
    (w.writeFile path bytes).count kind =
      w.count kind + (if kind (Event.write path bytes) then 1 else 0) := by
  simp [World.count, List.countP_append, List.countP_cons]

@[simp] theorem attemptsOf_ioCopy (sys : Sys) (path : String) (logs : LogStream) (w : World) :
    attemptsOf (ioCopy sys path logs w).2.events = attemptsOf w.events := by
  unfold ioCopy
  split
  · rfl
  · split <;> simp [attemptsOf, Event.attempt]

@[simp] theorem count_isGetPod_ioCopy (sys : Sys) (path : String) (logs : LogStream)
    (w : World) : (ioCopy sys path logs w).2.count Event.isGetPod = w.count Event.isGetPod := by
  unfold ioCopy
  split
  · rfl
  · split <;> simp [Event.isGetPod]

/-- Every call of `collectContainerLogs` adds exactly one log-stream request,
whatever the outcome of the call. -/
theorem attemptsOf_collectContainerLogs (sys : Sys) (cs : Clientset) (cfg : PodLogConfig)
    (p c : String) (w : World) :
    attemptsOf (collectContainerLogs sys cs cfg p c w).2.events =
      attemptsOf w.events ++ [(p, c)] := by
  unfold collectContainerLogs
  simp only []
  split
  · simp [attemptsOf, Event.attempt, logOptionsFor]
  · split
    · simp [attemptsOf, Event.attempt, logOptionsFor]
    · split
      · simp [attemptsOf, Event.attempt, logOptionsFor]
      · split
        · simp
          simp [attemptsOf, Event.attempt, logOptionsFor]
        · simp
          simp [attemptsOf, Event.attempt, logOptionsFor]

/-- A call of `collectContainerLogs` fetches no pod. -/
theorem count_isGetPod_collectContainerLogs (sys : Sys) (cs : Clientset) (cfg : PodLogConfig)
    (p c : String) (w : World) :
    (collectContainerLogs sys cs cfg p c w).2.count Event.isGetPod = w.count Event.isGetPod := by
  unfold collectContainerLogs
  simp only []
  split
  · simp [Event.isGetPod]
  · split
    · simp [Event.isGetPod]
    · split
      · simp [Event.isGetPod]
      · split <;> simp [Event.isGetPod]

theorem attemptsOf_collectLoop (sys : Sys) (cs : Clientset) (cfg : PodLogConfig) (p : String)
    (names : List String) (w : World) :
    attemptsOf (collectLoop sys cs cfg p names w).events =
      attemptsOf w.events ++ names.map (fun c => (p, c)) := by
  induction names generalizing w with
  | nil => simp [collectLoop]
  | cons c rest ih =>
    unfold collectLoop
    simp only []
    split
    · rw [ih]
      simp [attemptsOf_collectContainerLogs]
      simp [attemptsOf, Event.attempt]
    · rw [ih]
      simp [attemptsOf_collectContainerLogs]

theorem count_isGetPod_collectLoop (sys : Sys) (cs : Clientset) (cfg : PodLogConfig)
    (p : String) (names : List String) (w : World) :
    (collectLoop sys cs cfg p names w).count Event.isGetPod = w.count Event.isGetPod := by
  induction names generalizing w with
  | nil => simp [collectLoop]
  | cons c rest ih =>
    unfold collectLoop
    simp only []
    split
    · rw [ih]
      simp [count_isGetPod_collectContainerLogs, Event.isGetPod]
    · rw [ih]
      simp [count_isGetPod_collectContainerLogs]

theorem foldl_append_names (l : List Container) (acc : List String) :
    l.foldl (fun acc container => acc ++ [container.Name]) acc =
      acc ++ l.map (fun c => c.Name) := by
  induction l generalizing acc with
  | nil => simp
  | cons a rest ih => simp [ih]

/-- The slice built by the two `append` loops is the container set of the
specification. -/
theorem podContainers_eq_spec (cfg : PodLogConfig) (pod : Pod) :
    podContainers cfg pod = specContainerSet cfg pod := by
  unfold podContainers specContainerSet
  by_cases h : cfg.ContainerName = ""
  · simp [h, foldl_append_names]
  · simp [h]

/-- The log-stream requests of the pod loop, whatever the outcomes of the
stream, file and write calls. -/
theorem attemptsOf_podLoop (sys : Sys) (cs : Clientset) (cfg : PodLogConfig)
    (pods : List String) (w : World) :
    attemptsOf (podLoop sys cs cfg pods w).events =
      attemptsOf w.events ++ specAttempts cs.getPod cfg (w.count Event.isGetPod) pods := by
  induction pods generalizing w with
  | nil => simp [podLoop, specAttempts]
  | cons p rest ih =>
    unfold podLoop
    simp only []
    have hcount : (w.emit (Event.print ("Collecting logs for pod: " ++ p ++ "\n"))).count
        Event.isGetPod = w.count Event.isGetPod := by
      simp [Event.isGetPod]
    rw [hcount]
    cases hp : cs.getPod (w.count Event.isGetPod) cfg.Namespace p with
    | error err =>
      simp only []
      rw [ih]
      simp [specAttempts, hp, Event.isGetPod]
      simp [attemptsOf, Event.attempt]
    | ok pod =>
      simp only []
      rw [ih, attemptsOf_collectLoop, count_isGetPod_collectLoop, podContainers_eq_spec]
      simp [specAttempts, hp, Event.isGetPod]
      simp [attemptsOf, Event.attempt]

theorem attemptsOf_GetPodLogsToFile (sys : Sys) (cs : Clientset) (cfg : PodLogConfig)
    (w : World) (hdir : sys.mkdirAll (w.count Event.isMkdirAll) cfg.OutputDir = none) :
    attemptsOf (GetPodLogsToFile sys cs cfg w).2.events =
      attemptsOf w.events ++ specAttempts cs.getPod cfg (w.count Event.isGetPod) cfg.PodNames := by
  unfold GetPodLogsToFile
  simp only [hdir]
  rw [attemptsOf_podLoop]
  simp [Event.isGetPod]
  simp [attemptsOf, Event.attempt]

theorem specAttempts_append (getPod : Nat → String → String → Except GoError Pod)
    (cfg : PodLogConfig) (i : Nat) (pre post : List String) :
    specAttempts getPod cfg i (pre ++ post) =
      specAttempts getPod cfg i pre ++ specAttempts getPod cfg (i + pre.length) post := by
  induction pre generalizing i with
  | nil => simp [specAttempts]
  | cons p rest ih =>
    have hidx : i + 1 + rest.length = i + (rest.length + 1) := by omega
    rw [List.cons_append, specAttempts, specAttempts, ih, hidx, List.length_cons,
      List.append_assoc]

/-- When the stream opens, a call of `collectContainerLogs` hands exactly one
path to `os.Create`: the output directory joined with the derived file name. -/
theorem createsOf_collectContainerLogs (sys : Sys) (cs : Clientset) (cfg : PodLogConfig)
    (p c : String) (w : World) (logs : LogStream)
    (hlogs : cs.openStream (w.count Event.isOpenStream) cfg.Namespace p (logOptionsFor cfg c) =
      .ok logs) :
    createsOf (collectContainerLogs sys cs cfg p c w).2.events =
      createsOf w.events ++
        [sys.joinPath cfg.OutputDir
          (logFilename p c (sys.now (w.count Event.isTimeNow)).formatStamp)] := by
  have hio : ∀ path w0, createsOf (ioCopy sys path logs w0).2.events = createsOf w0.events := by
    intro path w0
    unfold ioCopy
    split
    · rfl
    · split <;> simp [createsOf, Event.created]
  unfold collectContainerLogs
  simp only [hlogs]
  split
  · simp [Event.isTimeNow]
    simp [createsOf, Event.created]
  · split
    · simp [Event.isTimeNow]
      simp [createsOf, Event.created]
    · split
      · simp [Event.isTimeNow, hio]
        simp [createsOf, Event.created]
      · simp [Event.isTimeNow, hio]
        simp [createsOf, Event.created]

theorem createsOf_collectLoop_single (sys : Sys) (cs : Clientset) (cfg : PodLogConfig)
    (p c : String) (w : World) :
    createsOf (collectLoop sys cs cfg p [c] w).events =
      createsOf (collectContainerLogs sys cs cfg p c w).2.events := by
  unfold collectLoop
  simp only []
  split
  · simp [collectLoop]
    simp [createsOf, Event.created]
  · simp [collectLoop]

/-! ## The claims -/

/-- C10: the test `len(strings.Split(c, "-")) == 1 && c != "istio-proxy"` of
`collectContainerLogs` holds exactly when the container name `c` has no `-`
(the empty name passes it), so dropping the `istio-proxy` exclusion leaves the
test, and with it the derived file name, unchanged. -/
theorem short_name_test_iff_no_hyphen (c : String) :
    (((Split c '-').length = 1 ∧ c ≠ "istio-proxy") ↔ '-' ∉ c.data) ∧
    (((Split c '-').length = 1 ∧ c ≠ "istio-proxy") ↔ (Split c '-').length = 1) ∧
    ((Split "" '-').length = 1 ∧ "" ≠ "istio-proxy") ∧
    (∀ p t : String, logFilename p c t =
      if (Split c '-').length = 1 then p ++ "_" ++ t ++ ".log"
      else p ++ "_" ++ c ++ "_" ++ t ++ ".log") := by
  refine ⟨short_decision_iff c, ?_, ⟨by decide, by decide⟩, ?_⟩
  · rw [short_decision_iff, Split_length_eq_one]
  · intro p t
    rw [logFilename_eq]
    by_cases h : '-' ∈ c.data
    · rw [if_pos h, if_neg (fun hc => (Split_length_eq_one c '-').mp hc h)]
    · rw [if_neg h, if_pos ((Split_length_eq_one c '-').mpr h)]

/-- C2: when `GetPodLogsToFile` runs without a container filter on a pod `p`
that has exactly one container `c`, the stream of which opens, the one file it
creates is named `p_t.log` if `c` has no `-` and `p_c_t.log` if `c` has a `-`
(as `istio-proxy` does), where `t` is the formatted time of the collection. -/
theorem single_container_filename (sys : Sys) (cs : Clientset) (cfg : PodLogConfig)
    (p c : String) (pod : Pod) (w : World) (logs : LogStream)
    (hpods : cfg.PodNames = [p]) (hfilter : cfg.ContainerName = "")
    (hone : pod.Spec.Containers ++ pod.Spec.InitContainers = [⟨c⟩])
    (hdir : sys.mkdirAll (w.count Event.isMkdirAll) cfg.OutputDir = none)
    (hpod : cs.getPod (w.count Event.isGetPod) cfg.Namespace p = .ok pod)
    (hlogs : cs.openStream (w.count Event.isOpenStream) cfg.Namespace p (logOptionsFor cfg c) =
      .ok logs) :
    createsOf (GetPodLogsToFile sys cs cfg w).2.events =
      createsOf w.events ++
        [sys.joinPath cfg.OutputDir
          (if '-' ∈ c.data then
            p ++ "_" ++ c ++ "_" ++ (sys.now (w.count Event.isTimeNow)).formatStamp ++ ".log"
          else p ++ "_" ++ (sys.now (w.count Event.isTimeNow)).formatStamp ++ ".log")] := by
  have hset : podContainers cfg pod = [c] := by
    rw [podContainers_eq_spec]
    simp [specContainerSet, hfilter, ← List.map_append, hone]
  unfold GetPodLogsToFile
  simp only [hdir, hpods]
  unfold podLoop
  simp only [count_emit, Event.isGetPod, Bool.false_eq_true, if_false, Nat.add_zero, hpod, hset]
  unfold podLoop
  rw [createsOf_collectLoop_single, createsOf_collectContainerLogs sys cs cfg p c _ logs]
  · simp [Event.isTimeNow, logFilename_eq]
    simp [createsOf, Event.created]
  · simpa [Event.isOpenStream] using hlogs

/-- Witness of C2: pod `web` with the single container `web` gets
`web_<timestamp>.log`, and with the single container `istio-proxy` gets
`web_istio-proxy_<timestamp>.log`. -/
theorem single_container_filename_witness :
    createsOf (GetPodLogsToFile (demoSys [podWeb]) (demoCluster [podWeb]) (demoConfig ["web"])
      World.init).2.events = ["pod-logs/web_20240102_030405.log"] ∧
    createsOf (GetPodLogsToFile (demoSys [podWebProxy]) (demoCluster [podWebProxy])
      (demoConfig ["web"]) World.init).2.events =
        ["pod-logs/web_istio-proxy_20240102_030405.log"] :=
  ⟨(single_container_filename (demoSys [podWeb]) (demoCluster [podWeb]) (demoConfig ["web"])
      "web" "web" podWeb World.init ⟨bytesOf "log of web", none⟩ rfl rfl rfl rfl rfl rfl).trans
      (by decide),
    (single_container_filename (demoSys [podWebProxy]) (demoCluster [podWebProxy])
      (demoConfig ["web"]) "web" "istio-proxy" podWebProxy World.init
      ⟨bytesOf "log of istio-proxy", none⟩ rfl rfl rfl rfl rfl rfl).trans (by decide)⟩

/-- C3: once the output directory exists, the log-stream requests of
`GetPodLogsToFile` (one per call of `collectContainerLogs`) are, pod by pod
and for the fetched pods only, the configured container name alone when it is
not empty, and else the regular container names followed by the init container
names, both in declaration order; so a pod listed between `pre` and `post`
and fetched as `pod` gets exactly that sequence, of length `N` for a pod with
`N` containers when there is no filter. -/
theorem GetPodLogsToFile_container_sequence (sys : Sys) (cs : Clientset) (cfg : PodLogConfig)
    (w : World) (pre post : List String) (p : String) (pod : Pod)
    (hpods : cfg.PodNames = pre ++ p :: post)
    (hdir : sys.mkdirAll (w.count Event.isMkdirAll) cfg.OutputDir = none)
    (hpod : cs.getPod (w.count Event.isGetPod + pre.length) cfg.Namespace p = .ok pod) :
    attemptsOf (GetPodLogsToFile sys cs cfg w).2.events =
      attemptsOf w.events ++
        (specAttempts cs.getPod cfg (w.count Event.isGetPod) pre ++
          ((if cfg.ContainerName ≠ "" then [cfg.ContainerName]
            else pod.Spec.Containers.map (fun k => k.Name) ++
              pod.Spec.InitContainers.map (fun k => k.Name)).map (fun c => (p, c)) ++
            specAttempts cs.getPod cfg (w.count Event.isGetPod + pre.length + 1) post)) ∧
    (cfg.ContainerName = "" →
      (podContainers cfg pod).length =
        pod.Spec.Containers.length + pod.Spec.InitContainers.length) := by
  constructor
  · rw [attemptsOf_GetPodLogsToFile sys cs cfg w hdir, hpods, specAttempts_append, specAttempts,
      hpod]
    by_cases h : cfg.ContainerName = ""
    · simp [specContainerSet, h]
    · simp [specContainerSet, h]
  · intro h
    rw [podContainers_eq_spec]
    simp [specContainerSet, h]

/-- Witness of C3: pod `job` (containers `app`, `sidecar`, init container
`setup`) listed after the unknown pod `gone` and before `web`; and the same
pod under the container filter `debug`, a name that is not in its spec. -/
theorem GetPodLogsToFile_container_sequence_witness :
    attemptsOf (GetPodLogsToFile (demoSys [podJob, podWeb]) (demoCluster [podJob, podWeb])
      (demoConfig ["gone", "job", "web"]) World.init).2.events =
        [("job", "app"), ("job", "sidecar"), ("job", "setup"), ("web", "web")] ∧
    (podContainers (demoConfig ["gone", "job", "web"]) podJob).length = 2 + 1 ∧
    attemptsOf (GetPodLogsToFile (demoSys [podJob, podWeb]) (demoCluster [podJob, podWeb])
      (filterConfig ["job"]) World.init).2.events = [("job", "debug")] :=
  ⟨(GetPodLogsToFile_container_sequence (demoSys [podJob, podWeb])
      (demoCluster [podJob, podWeb]) (demoConfig ["gone", "job", "web"]) World.init
      ["gone"] ["web"] "job" podJob rfl rfl rfl).1.trans (by decide),
    (GetPodLogsToFile_container_sequence (demoSys [podJob, podWeb])
      (demoCluster [podJob, podWeb]) (demoConfig ["gone", "job", "web"]) World.init
      ["gone"] ["web"] "job" podJob rfl rfl rfl).2 rfl,
    (GetPodLogsToFile_container_sequence (demoSys [podJob, podWeb])
      (demoCluster [podJob, podWeb]) (filterConfig ["job"]) World.init
      [] [] "job" podJob rfl rfl rfl).1.trans (by decide)⟩

/-- C4: once the output directory exists, the sequence of (pod, container)
collection attempts of `GetPodLogsToFile` is the one of the run in which every
stream opens (delivering any `data`), every file is created and every write
succeeds: it is fixed by the pod names and the outcomes of the pod fetches
alone, a failed fetch removing the attempts of that pod only. -/
theorem GetPodLogsToFile_failure_isolation (sys : Sys) (cs : Clientset) (cfg : PodLogConfig)
    (w : World) (data : List UInt8)
    (hdir : sys.mkdirAll (w.count Event.isMkdirAll) cfg.OutputDir = none) :
    attemptsOf (GetPodLogsToFile sys cs cfg w).2.events =
      attemptsOf (GetPodLogsToFile sys.filesSucceed (cs.streamsSucceed data) cfg w).2.events ∧
    attemptsOf (GetPodLogsToFile sys cs cfg w).2.events =
      attemptsOf w.events ++
        specAttempts cs.getPod cfg (w.count Event.isGetPod) cfg.PodNames := by
  have hdir2 : sys.filesSucceed.mkdirAll (w.count Event.isMkdirAll) cfg.OutputDir = none := hdir
  refine ⟨?_, attemptsOf_GetPodLogsToFile sys cs cfg w hdir⟩
  rw [attemptsOf_GetPodLogsToFile sys cs cfg w hdir,
    attemptsOf_GetPodLogsToFile sys.filesSucceed (cs.streamsSucceed data) cfg w hdir2]
  rfl

/-- Witness of C4: the stream of the second container of pod `job` does not
open, the copy into the file of its third container stops after two bytes and
the file of pod `web` cannot be created, and still every container of `job`
and of `web` is attempted, as in the run without failures. -/
theorem GetPodLogsToFile_failure_isolation_witness :
    attemptsOf (GetPodLogsToFile (faultySys [podJob, podWeb]) (faultyCluster [podJob, podWeb])
      (demoConfig ["job", "web"]) World.init).2.events =
        attemptsOf (GetPodLogsToFile (faultySys [podJob, podWeb]).filesSucceed
          ((faultyCluster [podJob, podWeb]).streamsSucceed []) (demoConfig ["job", "web"])
          World.init).2.events ∧
    attemptsOf (GetPodLogsToFile (faultySys [podJob, podWeb]) (faultyCluster [podJob, podWeb])
      (demoConfig ["job", "web"]) World.init).2.events =
        [("job", "app"), ("job", "sidecar"), ("job", "setup"), ("web", "web")] ∧
    (GetPodLogsToFile (faultySys [podJob, podWeb]) (faultyCluster [podJob, podWeb])
      (demoConfig ["job", "web"]) World.init).2.count Event.isCreate = 3 :=
  ⟨(GetPodLogsToFile_failure_isolation (faultySys [podJob, podWeb])
      (faultyCluster [podJob, podWeb]) (demoConfig ["job", "web"]) World.init [] rfl).1,
    (GetPodLogsToFile_failure_isolation (faultySys [podJob, podWeb])
      (faultyCluster [podJob, podWeb]) (demoConfig ["job", "web"]) World.init [] rfl).2.trans
      (by decide), by decide⟩

/-- C5: when the output directory cannot be created, `GetPodLogsToFile`
returns an error that wraps the directory error, and the only thing it has
done is the `MkdirAll` call: no pod fetch, no log-stream request, no file
creation and no change to any file, whatever the list of pod names. -/
theorem GetPodLogsToFile_mkdir_failure (sys : Sys) (cs : Clientset) (cfg : PodLogConfig)
    (w : World) (err : GoError)
    (hdir : sys.mkdirAll (w.count Event.isMkdirAll) cfg.OutputDir = some err) :
    (GetPodLogsToFile sys cs cfg w).1 =
      some (GoError.wrap "failed to create output directory: " err) ∧
    (GetPodLogsToFile sys cs cfg w).1.bind GoError.Unwrap = some err ∧
    (GetPodLogsToFile sys cs cfg w).2.events = w.events ++ [Event.mkdirAll cfg.OutputDir] ∧
    (GetPodLogsToFile sys cs cfg w).2.files = w.files ∧
    fetchesOf (GetPodLogsToFile sys cs cfg w).2.events = fetchesOf w.events ∧
    attemptsOf (GetPodLogsToFile sys cs cfg w).2.events = attemptsOf w.events ∧
    createsOf (GetPodLogsToFile sys cs cfg w).2.events = createsOf w.events := by
  have hrun : GetPodLogsToFile sys cs cfg w =
      (some (GoError.wrap "failed to create output directory: " err),
        w.emit (Event.mkdirAll cfg.OutputDir)) := by
    unfold GetPodLogsToFile
    simp only [hdir]
  rw [hrun]
  refine ⟨rfl, rfl, rfl, rfl, ?_, ?_, ?_⟩
  · simp [fetchesOf, Event.fetched]
  · simp [attemptsOf, Event.attempt]
  · simp [createsOf, Event.created]

/-- Witness of C5: three pod names and a directory that cannot be created. -/
theorem GetPodLogsToFile_mkdir_failure_witness :
    (GetPodLogsToFile (noDirSys [podJob, podWeb]) (demoCluster [podJob, podWeb])
      (demoConfig ["job", "web", "gone"]) World.init).2.events = [Event.mkdirAll "pod-logs"] :=
  (GetPodLogsToFile_mkdir_failure (noDirSys [podJob, podWeb]) (demoCluster [podJob, podWeb])
    (demoConfig ["job", "web", "gone"]) World.init
    (GoError.base "mkdir pod-logs: not a directory") rfl).2.2.1

/-- C9: for a namespace without pods (the names `GetPodNames` gives for the
empty pod list), `GetPodLogsToFile` returns `nil` when the output directory
can be created, and the only thing it has done is the `MkdirAll` call: no pod
fetch, no log-stream request, no file created or written. -/
theorem GetPodLogsToFile_no_pods (sys : Sys) (cs : Clientset) (cfg : PodLogConfig)
    (w : World) (hpods : cfg.PodNames = GetPodNames [])
    (hdir : sys.mkdirAll (w.count Event.isMkdirAll) cfg.OutputDir = none) :
    (GetPodLogsToFile sys cs cfg w).1 = none ∧
    (GetPodLogsToFile sys cs cfg w).2.events = w.events ++ [Event.mkdirAll cfg.OutputDir] ∧
    (GetPodLogsToFile sys cs cfg w).2.files = w.files := by
  have hrun : GetPodLogsToFile sys cs cfg w =
      (none, w.emit (Event.mkdirAll cfg.OutputDir)) := by
    unfold GetPodLogsToFile
    simp only [hdir, hpods, GetPodNames, List.map_nil, podLoop]
  rw [hrun]
  exact ⟨rfl, rfl, rfl⟩

/-- Witness of C9: the configuration of `main` for an empty namespace. -/
theorem GetPodLogsToFile_no_pods_witness :
    (GetPodLogsToFile (demoSys []) (demoCluster []) (demoConfig []) World.init).1 = none ∧
    (GetPodLogsToFile (demoSys []) (demoCluster []) (demoConfig [])
      World.init).2.events = [Event.mkdirAll "pod-logs"] :=
  ⟨(GetPodLogsToFile_no_pods (demoSys []) (demoCluster []) (demoConfig []) World.init
      rfl rfl).1,
    (GetPodLogsToFile_no_pods (demoSys []) (demoCluster []) (demoConfig []) World.init
      rfl rfl).2.1⟩

/-- The file content after a successful `collectContainerLogs`, in terms of
the header string that the program formats. -/
theorem files_collectContainerLogs (sys : Sys) (cs : Clientset) (cfg : PodLogConfig)
    (p c : String) (w : World) (logs : LogStream)
    (hlogs : cs.openStream (w.count Event.isOpenStream) cfg.Namespace p (logOptionsFor cfg c) =
      .ok logs)
    (hok : (collectContainerLogs sys cs cfg p c w).1 = none) :
    (collectContainerLogs sys cs cfg p c w).2.files
        (sys.joinPath cfg.OutputDir
          (logFilename p c (sys.now (w.count Event.isTimeNow)).formatStamp)) =
      some (bytesOf (logHeader p c (sys.now (w.count Event.isTimeNow + 1)).formatDateTime) ++
        logs.data) := by
  revert hok
  unfold collectContainerLogs
  simp only [hlogs]
  split
  · intro hok
    cases hok
  · split
    · intro hok
      cases hok
    · split
      · intro hok
        cases hok
      · rename_i hcopy
        intro _
        revert hcopy
        unfold ioCopy
        split
        · rename_i hempty
          intro _
          simp [Event.isTimeNow, hempty]
        · split
          · intro hcopy
            cases hcopy
          · intro _
            simp [Event.isTimeNow]

theorem bytesOf_append (a b : String) : bytesOf (a ++ b) = bytesOf a ++ bytesOf b := by
  simp [bytesOf, String.data_append]

/-- The header string is the header line up to its closing `===`, then two
newline bytes. -/
theorem bytesOf_logHeader (p c t : String) :
    bytesOf (logHeader p c t) =
      bytesOf ("=== Pod: " ++ p ++ " | Container: " ++ c ++ " | Collected: " ++ t ++ " ===") ++
        [10, 10] := by
  have htail : bytesOf " ===\n\n" = bytesOf " ===" ++ [10, 10] := by decide
  unfold logHeader
  rw [bytesOf_append _ " ===\n\n", bytesOf_append _ " ===", htail, List.append_assoc]

/-- C6, as the code has it: when `collectContainerLogs` returns `nil` for a
stream that supplies the bytes `logs.data`, the content of the file it created
is the bytes of the header
`=== Pod: <pod> | Container: <container> | Collected: <time> ===`, then the two
newline bytes that the program writes after the header (10, 10), then exactly
`logs.data`, with nothing else inserted, dropped or transformed. -/
theorem collectContainerLogs_round_trip (sys : Sys) (cs : Clientset) (cfg : PodLogConfig)
    (p c : String) (w : World) (logs : LogStream)
    (hlogs : cs.openStream (w.count Event.isOpenStream) cfg.Namespace p (logOptionsFor cfg c) =
      .ok logs)
    (hok : (collectContainerLogs sys cs cfg p c w).1 = none) :
    (collectContainerLogs sys cs cfg p c w).2.files
        (sys.joinPath cfg.OutputDir
          (logFilename p c (sys.now (w.count Event.isTimeNow)).formatStamp)) =
      some (bytesOf ("=== Pod: " ++ p ++ " | Container: " ++ c ++ " | Collected: " ++
          (sys.now (w.count Event.isTimeNow + 1)).formatDateTime ++ " ===") ++
        [10, 10] ++ logs.data) ∧
    createsOf (collectContainerLogs sys cs cfg p c w).2.events =
      createsOf w.events ++
        [sys.joinPath cfg.OutputDir
          (logFilename p c (sys.now (w.count Event.isTimeNow)).formatStamp)] := by
  refine ⟨?_, createsOf_collectContainerLogs sys cs cfg p c w logs hlogs⟩
  rw [files_collectContainerLogs sys cs cfg p c w logs hlogs hok, bytesOf_logHeader]

/-- Witness of C6: the file of container `web` of pod `web`, whose stream
supplies the ten bytes of `log of web`: the 66 bytes of the header, two
newline bytes and the ten bytes of the log. -/
theorem collectContainerLogs_round_trip_witness :
    (collectContainerLogs (demoSys [podWeb]) (demoCluster [podWeb]) (demoConfig ["web"])
      "web" "web" World.init).2.files "pod-logs/web_20240102_030405.log" =
        some ([61, 61, 61, 32, 80, 111, 100, 58, 32, 119, 101, 98, 32, 124, 32, 67, 111, 110, 116,
          97, 105, 110, 101, 114, 58, 32, 119, 101, 98, 32, 124, 32, 67, 111, 108, 108, 101,
          99, 116, 101, 100, 58, 32, 50, 48, 50, 52, 45, 48, 49, 45, 48, 50, 32, 48, 51, 58,
          48, 52, 58, 48, 53, 32, 61, 61, 61, 10, 10] ++
          [108, 111, 103, 32, 111, 102, 32, 119, 101, 98]) :=
  (collectContainerLogs_round_trip (demoSys [podWeb]) (demoCluster [podWeb])
    (demoConfig ["web"]) "web" "web" World.init
    ⟨[108, 111, 103, 32, 111, 102, 32, 119, 101, 98], none⟩ rfl rfl).1.trans (by decide)

/-- Counterexample to C6 as stated: the stream of container `web` of pod `web`
opens and supplies the ten bytes of `log of web`, the call returns `nil`, and
the file is not the 66 bytes of the header
`=== Pod: web | Container: web | Collected: 2024-01-02 03:04:05 ===` followed
directly by those ten bytes: it has 78 bytes, not 76, the two bytes after the
header being newlines. -/
theorem collectContainerLogs_round_trip_counterexample :
    ((demoCluster [podWeb]).openStream 0 "default" "web"
        (logOptionsFor (demoConfig ["web"]) "web")).toOption.map LogStream.data =
      some [108, 111, 103, 32, 111, 102, 32, 119, 101, 98] ∧
    (collectContainerLogs (demoSys [podWeb]) (demoCluster [podWeb]) (demoConfig ["web"])
      "web" "web" World.init).1 = none ∧
    bytesOf "=== Pod: web | Container: web | Collected: 2024-01-02 03:04:05 ===" =
      [61, 61, 61, 32, 80, 111, 100, 58, 32, 119, 101, 98, 32, 124, 32, 67, 111, 110, 116,
          97, 105, 110, 101, 114, 58, 32, 119, 101, 98, 32, 124, 32, 67, 111, 108, 108, 101,
          99, 116, 101, 100, 58, 32, 50, 48, 50, 52, 45, 48, 49, 45, 48, 50, 32, 48, 51, 58,
          48, 52, 58, 48, 53, 32, 61, 61, 61] ∧
    (collectContainerLogs (demoSys [podWeb]) (demoCluster [podWeb]) (demoConfig ["web"])
      "web" "web" World.init).2.files "pod-logs/web_20240102_030405.log" ≠
        some ([61, 61, 61, 32, 80, 111, 100, 58, 32, 119, 101, 98, 32, 124, 32, 67, 111, 110, 116,
          97, 105, 110, 101, 114, 58, 32, 119, 101, 98, 32, 124, 32, 67, 111, 108, 108, 101,
          99, 116, 101, 100, 58, 32, 50, 48, 50, 52, 45, 48, 49, 45, 48, 50, 32, 48, 51, 58,
          48, 52, 58, 48, 53, 32, 61, 61, 61] ++
          [108, 111, 103, 32, 111, 102, 32, 119, 101, 98]) ∧
    ((collectContainerLogs (demoSys [podWeb]) (demoCluster [podWeb]) (demoConfig ["web"])
      "web" "web" World.init).2.files "pod-logs/web_20240102_030405.log").map List.length =
        some 78 := by
  decide

/-- C7, as the code has it: `main` ends with exit code 0, its last output
being the completion message, whenever client creation, flag parsing, pod
listing and the creation of the output directory `./pod-logs` all succeed,
whatever the outcomes of the pod fetches and of the container collections;
and it ends with exit code 1 when client creation fails. -/
theorem main_exit_code (sys : Sys) (w : World) :
    (∀ (cs : Clientset) (ns : String) (args : List String) (pods : List Pod),
      CreateKubernetesClient sys = .ok cs →
      sys.flagParse = .ok (ns, args) →
      cs.listPods (w.count Event.isListPods) ns = .ok pods →
      sys.mkdirAll (w.count Event.isMkdirAll) "./pod-logs" = none →
      (main sys w).1 = 0 ∧
        (printsOf (main sys w).2.events).getLast? = some "Log collection completed!\n") ∧
    (∀ err : GoError, CreateKubernetesClient sys = .error err → (main sys w).1 = 1) := by
  constructor
  · intro cs ns args pods hc hf hl hd
    unfold main
    simp only [hc]
    unfold readArgsWithFlags
    simp only [hf]
    split
    · rename_i hargs
      split at hargs
      · cases hargs
      · cases hargs
    · rename_i ns1 w1 hargs
      have hw1 : w1.count Event.isListPods = w.count Event.isListPods ∧
          w1.count Event.isMkdirAll = w.count Event.isMkdirAll ∧ ns1 = ns := by
        split at hargs
        · cases hargs
          simp [Event.isListPods, Event.isMkdirAll]
        · cases hargs
          simp [Event.isListPods, Event.isMkdirAll]
      obtain ⟨h1, h2, h3⟩ := hw1
      subst h3
      unfold ListPodsInNamespace
      simp only [h1, hl]
      unfold GetPodLogsToFile
      simp only [count_emit, h2, Event.isMkdirAll, Bool.false_eq_true, if_false, Nat.add_zero, hd]
      simp [printsOf, Event.printed]
  · intro err hc
    unfold main
    simp only [hc]

/-- Witness of C7: a cluster that lists two pods and then refuses every pod
fetch and every log stream, and a system without credentials. -/
theorem main_exit_code_witness :
    (main (deafSys [podJob, podWeb]) World.init).1 = 0 ∧
    fetchesOf (main (deafSys [podJob, podWeb]) World.init).2.events = ["job", "web"] ∧
    createsOf (main (deafSys [podJob, podWeb]) World.init).2.events = [] ∧
    (main noClientSys World.init).1 = 1 :=
  ⟨((main_exit_code (deafSys [podJob, podWeb]) World.init).1 (deafCluster [podJob, podWeb])
      "default" [] [podJob, podWeb] rfl rfl rfl rfl).1,
    by decide, by decide,
    (main_exit_code noClientSys World.init).2
      (GoError.wrap "failed to create kubernetes config: "
        (GoError.base "no configuration has been provided")) rfl⟩

/-- Counterexample to C7 as stated: client creation and pod listing succeed,
the output directory cannot be created, and `main` ends with exit code 1
without the completion message. -/
theorem main_exit_code_counterexample :
    CreateKubernetesClient (noDirSys [podWeb]) = .ok (demoCluster [podWeb]) ∧
    (ListPodsInNamespace (demoCluster [podWeb]) "default" World.init).1 = .ok [podWeb] ∧
    (main (noDirSys [podWeb]) World.init).1 = 1 ∧
    printsOf (main (noDirSys [podWeb]) World.init).2.events =
      ["\n=== Pull pods logs from Kubernetes ===\n",
        "Error collecting logs: failed to create output directory: " ++
          "mkdir pod-logs: not a directory\n"] :=
  ⟨rfl, rfl, by decide, by decide⟩

/-- C1, evaluated on the code: pod `api` has the two containers `api` and
`istio-proxy` and there is no container filter, yet the file of container
`api` gets the short name `api_<timestamp>.log`; only the name of the
container with a `-` has the long form. -/
theorem two_container_pod_short_filename :
    (podContainers (demoConfig ["api"]) podApi).length = 2 ∧
    createsOf (GetPodLogsToFile (demoSys [podApi]) (demoCluster [podApi]) (demoConfig ["api"])
      World.init).2.events =
        ["pod-logs/api_20240102_030405.log", "pod-logs/api_istio-proxy_20240102_030405.log"] ∧
    logFilename "api" "api" "20240102_030405" = "api_20240102_030405.log" ∧
    logFilename "api" "api" "20240102_030405" ≠ "api_api_20240102_030405.log" := by
  decide

/-- C8, evaluated on the code: the containers `app` and `sidecar` of pod
`web`, collected in the same second, get the same file name, so the second
collection truncates the file of the first and only the log of `sidecar`
remains. -/
theorem sibling_containers_share_filename :
    ("web", "app") ≠ ("web", "sidecar") ∧
    logFilename "web" "app" "20240102_030405" = logFilename "web" "sidecar" "20240102_030405" ∧
    createsOf (GetPodLogsToFile (demoSys [podPair]) (demoCluster [podPair]) (demoConfig ["web"])
      World.init).2.events =
        ["pod-logs/web_20240102_030405.log", "pod-logs/web_20240102_030405.log"] ∧
    (GetPodLogsToFile (demoSys [podPair]) (demoCluster [podPair]) (demoConfig ["web"])
      World.init).2.files "pod-logs/web_20240102_030405.log" =
        some (bytesOf
          "=== Pod: web | Container: sidecar | Collected: 2024-01-02 03:04:05 ===\n\n" ++
          bytesOf "log of sidecar") := by
  decide

end K8sLogs
